import Mathlib

/-
  Verification of the Wayland window backend
  (intern/ghost/intern/GHOST_WindowWayland.cpp).

  The file shallowly embeds the window state record `window_t`, the libdecor
  callbacks `frame_configure` / `frame_close`, and the `GHOST_WindowWayland`
  methods the specification talks about.  External collaborators (the host
  event queue, the host window manager, the clock, EGL context initialization,
  the `GHOST_Rect` helper) are modelled from the specification's description of
  their contracts; their results, where they can vary, are inputs of the
  embedded functions.
-/

namespace GhostWayland

/-- Binary success/failure result type (`GHOST_TSuccess`). -/
inductive GHOST_TSuccess
  | kFailure
  | kSuccess
deriving DecidableEq, Repr

/-- Window states (`GHOST_TWindowState`), restricted to the values the
source file mentions. -/
inductive GHOST_TWindowState
  | kWindowStateNormal
  | kWindowStateMaximized
  | kWindowStateMinimized
  | kWindowStateFullScreen
  | kWindowStateEmbedded
deriving DecidableEq, Repr

/-- Event kinds pushed by this window (`GHOST_TEventType`, restricted to the
kinds the source file emits). -/
inductive GHOST_TEventType
  | kEventWindowClose
  | kEventWindowActivate
  | kEventWindowDeactivate
  | kEventWindowSize
deriving DecidableEq, Repr

/-- Modelled from the spec: a lifecycle event is "timestamped, typed,
window-tagged"; there is a single window in this development, so the window
tag is omitted. -/
structure GHOST_Event where
  time : Nat
  etype : GHOST_TEventType
deriving DecidableEq, Repr

/-- Modelled from the spec: the external system state visible to this window —
the host event queue (FIFO), the host clock (`getMilliSeconds`, held constant
across one callback), and whether the host window manager accepts this window
as the active window (`setActiveWindow` result). -/
structure SystemState where
  eventQueue : List GHOST_Event
  clock : Nat
  wmAcceptsActive : Bool
deriving DecidableEq, Repr

/-- Modelled from the spec: the host event queue accepts a timestamped, typed
event in FIFO submission order; submission itself succeeds. -/
def pushEvent (sys : SystemState) (ty : GHOST_TEventType) :
    SystemState × GHOST_TSuccess :=
  ({ sys with eventQueue := sys.eventQueue ++ [{ time := sys.clock, etype := ty }] },
   GHOST_TSuccess.kSuccess)

/-- Modelled from the spec: the host window manager is notified on activation
and tracks the singular active window; it may accept or refuse the request
(`GHOST_WindowManager::setActiveWindow` is outside this excerpt), which the
environment flag `wmAcceptsActive` decides. -/
def setActiveWindow (sys : SystemState) : SystemState × GHOST_TSuccess :=
  (sys, if sys.wmAcceptsActive then GHOST_TSuccess.kSuccess else GHOST_TSuccess.kFailure)

/-- Modelled from the spec: the host window manager is notified on
deactivation; no failure is reported. -/
def setWindowInactive (sys : SystemState) : SystemState :=
  sys

/-- The per-window state record `window_t` of the source file.  The opaque
surface / decoration-frame / EGL-window handles are represented by their
observable state: the native rendering surface's size (`egl_width`,
`egl_height`) and liveness flags for the frame and the surface. -/
structure window_t where
  is_maximised : Bool
  is_fullscreen : Bool
  is_active : Bool
  is_dialog : Bool
  width : Int
  height : Int
  egl_width : Int
  egl_height : Int
  frame_valid : Bool
  surface_valid : Bool
deriving DecidableEq, Repr

/-- The libdecor window-state bitmask, as the three bits the source reads
(`LIBDECOR_WINDOW_STATE_MAXIMIZED`, `..._FULLSCREEN`, `..._ACTIVE`). -/
structure libdecor_window_state where
  maximized : Bool
  fullscreen : Bool
  active : Bool
deriving DecidableEq, Repr

/-- `LIBDECOR_WINDOW_STATE_NONE`: all state bits clear. -/
def LIBDECOR_WINDOW_STATE_NONE : libdecor_window_state :=
  { maximized := false, fullscreen := false, active := false }

/-- A libdecor configuration descriptor: it may carry a content size
(`libdecor_configuration_get_content_size`) and may carry window-state flags
(`libdecor_configuration_get_window_state`); either getter can report
absence. -/
structure libdecor_configuration where
  content_size : Option (Int × Int)
  window_state : Option libdecor_window_state
deriving DecidableEq, Repr

/-- Commands the window issues to the decoration layer
(`libdecor_frame_set` / `libdecor_frame_unset` calls in `setState`). -/
inductive DecorCmd
  | set_maximized
  | unset_maximized
  | set_minimized
  | set_fullscreen
  | unset_fullscreen
deriving DecidableEq, Repr

/-- C cast of a `GHOST_TUns32` value to a 32-bit signed integer
(`int32_t(width)` / `int(width)` in the source). -/
def int32_of_uns32 (n : Nat) : Int :=
  if n % 2 ^ 32 < 2 ^ 31 then ((n % 2 ^ 32 : Nat) : Int)
  else ((n % 2 ^ 32 : Nat) : Int) - 2 ^ 32

/-- C cast of an `int32_t` value to `GHOST_TUns32` (`GHOST_TUns32(w->height)`
in the source). -/
def uns32_of_int32 (i : Int) : Nat :=
  (i % 2 ^ 32).toNat

/-- Modelled from the spec: `wl_egl_window_resize` resizes the native
rendering surface to the given size with zero offset; observable here as the
EGL window's stored size. -/
def wl_egl_window_resize (win : window_t) (width height : Int) : window_t :=
  { win with egl_width := width, egl_height := height }

/-- Modelled from the spec: `GHOST_Rect` is declared outside this excerpt; a
bounds query fills a rectangle with left/top/right/bottom via its `set`
member. -/
structure GHOST_Rect where
  m_l : Int
  m_t : Int
  m_r : Int
  m_b : Int
deriving DecidableEq, Repr

/-- `GHOST_Rect::set(l, t, r, b)` assigns the four members. -/
def GHOST_Rect.set (l t r b : Int) : GHOST_Rect :=
  { m_l := l, m_t := t, m_r := r, m_b := b }

/- ------------------------------------------------------------------ -/
/- GHOST_WindowWayland methods                                        -/
/- ------------------------------------------------------------------ -/

/-- `GHOST_WindowWayland::close`: push one `GHOST_kEventWindowClose` event. -/
def close (sys : SystemState) : SystemState × GHOST_TSuccess :=
  pushEvent sys GHOST_TEventType.kEventWindowClose

/-- `GHOST_WindowWayland::activate`: ask the window manager to make this
window active; on refusal return failure without pushing anything, otherwise
push one `GHOST_kEventWindowActivate` event. -/
def activate (sys : SystemState) : SystemState × GHOST_TSuccess :=
  match setActiveWindow sys with
  | (sys1, GHOST_TSuccess.kFailure) => (sys1, GHOST_TSuccess.kFailure)
  | (sys1, GHOST_TSuccess.kSuccess) => pushEvent sys1 GHOST_TEventType.kEventWindowActivate

/-- `GHOST_WindowWayland::deactivate`: tell the window manager and push one
`GHOST_kEventWindowDeactivate` event, unconditionally. -/
def deactivate (sys : SystemState) : SystemState × GHOST_TSuccess :=
  pushEvent (setWindowInactive sys) GHOST_TEventType.kEventWindowDeactivate

/-- `GHOST_WindowWayland::notify_size`: push one `GHOST_kEventWindowSize`
event. -/
def notify_size (sys : SystemState) : SystemState × GHOST_TSuccess :=
  pushEvent sys GHOST_TEventType.kEventWindowSize

/-- The `frame_configure` libdecor callback: adopt the configuration's content
size if present (otherwise keep the current size), resize the EGL window,
broadcast a size event, adopt the window-state flags (or
`LIBDECOR_WINDOW_STATE_NONE` if absent), then activate or deactivate according
to the adopted active flag.  The final per-configuration acknowledgement
(`libdecor_state_new` / `libdecor_frame_commit` / `libdecor_state_free`) is a
pure protocol acknowledgement with no observable state in this model. -/
def frame_configure (cfg : libdecor_configuration) (win : window_t)
    (sys : SystemState) : window_t × SystemState :=
  let wh : Int × Int :=
    match cfg.content_size with
    | some p => p
    | none => (win.width, win.height)
  let win1 : window_t := { win with width := wh.1, height := wh.2 }
  let win2 : window_t := wl_egl_window_resize win1 win1.width win1.height
  let sys1 : SystemState := (notify_size sys).1
  let window_state : libdecor_window_state :=
    match cfg.window_state with
    | some s => s
    | none => LIBDECOR_WINDOW_STATE_NONE
  let win3 : window_t :=
    { win2 with
      is_maximised := window_state.maximized,
      is_fullscreen := window_state.fullscreen,
      is_active := window_state.active }
  let sys2 : SystemState :=
    if win3.is_active then (activate sys1).1 else (deactivate sys1).1
  (win3, sys2)

/-- The `frame_close` libdecor callback: forwards to the window's `close`
method; it touches neither the window record nor the native handles. -/
def frame_close (win : window_t) (sys : SystemState) :
    window_t × SystemState × GHOST_TSuccess :=
  let (sys1, r) := close sys
  (win, sys1, r)

/-- The `GHOST_WindowWayland` constructor, restricted to the state it
establishes in `window_t`: width/height from the constructor arguments (cast
through `int32_t`), the dialog flag, the EGL window created at the same size,
and live surface/frame handles.  `new window_t` leaves `is_maximised`,
`is_fullscreen` and `is_active` uninitialized, so they are parameters. -/
def construct (width height : Nat) (is_dialog : Bool)
    (init_maximised init_fullscreen init_active : Bool) : window_t :=
  { is_maximised := init_maximised,
    is_fullscreen := init_fullscreen,
    is_active := init_active,
    is_dialog := is_dialog,
    width := int32_of_uns32 width,
    height := int32_of_uns32 height,
    egl_width := int32_of_uns32 width,
    egl_height := int32_of_uns32 height,
    frame_valid := true,
    surface_valid := true }

/-- `GHOST_WindowWayland::getClientBounds`: `bounds.set(0, 0, w->width,
w->height)`. -/
def getClientBounds (win : window_t) : GHOST_Rect :=
  GHOST_Rect.set 0 0 win.width win.height

/-- `GHOST_WindowWayland::getWindowBounds` forwards to `getClientBounds`. -/
def getWindowBounds (win : window_t) : GHOST_Rect :=
  getClientBounds win

/-- `GHOST_WindowWayland::setClientSize`: resize the EGL window to the given
size (cast through `int`) and report success; `w->width` / `w->height` are not
assigned. -/
def setClientSize (win : window_t) (width height : Nat) :
    window_t × GHOST_TSuccess :=
  (wl_egl_window_resize win (int32_of_uns32 width) (int32_of_uns32 height),
   GHOST_TSuccess.kSuccess)

/-- `GHOST_WindowWayland::setClientWidth`: `setClientSize(width,
GHOST_TUns32(w->height))`. -/
def setClientWidth (win : window_t) (width : Nat) :
    window_t × GHOST_TSuccess :=
  setClientSize win width (uns32_of_int32 win.height)

/-- `GHOST_WindowWayland::setClientHeight`: `setClientSize(
GHOST_TUns32(w->width), height)`. -/
def setClientHeight (win : window_t) (height : Nat) :
    window_t × GHOST_TSuccess :=
  setClientSize win (uns32_of_int32 win.width) height

/-- `GHOST_WindowWayland::screenToClient`: the identity on coordinates. -/
def screenToClient (inX inY : Int) : Int × Int :=
  (inX, inY)

/-- `GHOST_WindowWayland::clientToScreen`: the identity on coordinates. -/
def clientToScreen (inX inY : Int) : Int × Int :=
  (inX, inY)

/-- `GHOST_WindowWayland::getState`: fullscreen wins over maximized, which
wins over normal. -/
def getState (win : window_t) : GHOST_TWindowState :=
  if win.is_fullscreen then GHOST_TWindowState.kWindowStateFullScreen
  else if win.is_maximised then GHOST_TWindowState.kWindowStateMaximized
  else GHOST_TWindowState.kWindowStateNormal

/-- `GHOST_WindowWayland::setState`: forward the request to the decoration
layer.  A normal-state request unsets whichever single state `getState`
currently reports; an embedded-state request returns failure.  The result
carries the (unmodified) window record, the decoration commands issued in
order, and the success flag. -/
def setState (win : window_t) (state : GHOST_TWindowState) :
    window_t × List DecorCmd × GHOST_TSuccess :=
  match state with
  | GHOST_TWindowState.kWindowStateNormal =>
    (win,
     match getState win with
     | GHOST_TWindowState.kWindowStateMaximized => [DecorCmd.unset_maximized]
     | GHOST_TWindowState.kWindowStateFullScreen => [DecorCmd.unset_fullscreen]
     | _ => [],
     GHOST_TSuccess.kSuccess)
  | GHOST_TWindowState.kWindowStateMaximized =>
    (win, [DecorCmd.set_maximized], GHOST_TSuccess.kSuccess)
  | GHOST_TWindowState.kWindowStateMinimized =>
    (win, [DecorCmd.set_minimized], GHOST_TSuccess.kSuccess)
  | GHOST_TWindowState.kWindowStateFullScreen =>
    (win, [DecorCmd.set_fullscreen], GHOST_TSuccess.kSuccess)
  | GHOST_TWindowState.kWindowStateEmbedded =>
    (win, [], GHOST_TSuccess.kFailure)

/-- Drawing-context kinds (`GHOST_TDrawingContextType`), as handled by the
source's switch. -/
inductive GHOST_TDrawingContextType
  | kDrawingContextTypeNone
  | kDrawingContextTypeOpenGL
deriving DecidableEq, Repr

/-- The context objects `newDrawingContext` constructs
(`GHOST_ContextNone` / `GHOST_ContextEGL`), identified by their kind and the
stereo-visual flag passed to their constructor. -/
inductive GHOST_Context
  | ContextNone (stereoVisual : Bool)
  | ContextEGL (stereoVisual : Bool)
deriving DecidableEq, Repr

/-- The context object constructed by `newDrawingContext` for each requested
type. -/
def constructedContext (stereoVisual : Bool) (t : GHOST_TDrawingContextType) :
    GHOST_Context :=
  match t with
  | GHOST_TDrawingContextType.kDrawingContextTypeNone =>
    GHOST_Context.ContextNone stereoVisual
  | GHOST_TDrawingContextType.kDrawingContextTypeOpenGL =>
    GHOST_Context.ContextEGL stereoVisual

/-- `GHOST_WindowWayland::newDrawingContext`: construct the context for the
requested type, run its initialization step (`initializeDrawingContext` is
outside this excerpt, so its verdict `initDrawingContext` is an input), and
return the context on success, a null result on failure. -/
def newDrawingContext (stereoVisual : Bool) (t : GHOST_TDrawingContextType)
    (initDrawingContext : GHOST_Context → GHOST_TSuccess) :
    Option GHOST_Context :=
  let context := constructedContext stereoVisual t
  if initDrawingContext context = GHOST_TSuccess.kSuccess then some context
  else none

/- ------------------------------------------------------------------ -/
/- Concrete sample values used by counterexamples and witnesses       -/
/- ------------------------------------------------------------------ -/

/-- A window constructed with width 800, height 600, not a dialog, with all
indeterminate flags cleared. -/
def win800 : window_t :=
  construct 800 600 false false false false

/-- A system whose window manager accepts activation. -/
def sysAccept : SystemState :=
  { eventQueue := [], clock := 7, wmAcceptsActive := true }

/-- A system whose window manager refuses activation. -/
def sysRefuse : SystemState :=
  { eventQueue := [], clock := 7, wmAcceptsActive := false }

/-- A configuration descriptor with no size payload and no state flags. -/
def cfgNoSize : libdecor_configuration :=
  { content_size := none, window_state := none }

/-- A configuration descriptor with no size payload and the active bit set. -/
def cfgActive : libdecor_configuration :=
  { content_size := none,
    window_state := some { maximized := false, fullscreen := false, active := true } }

/-- A configuration descriptor carrying both the fullscreen and the maximized
bits. -/
def cfgFullMax : libdecor_configuration :=
  { content_size := none,
    window_state := some { maximized := true, fullscreen := true, active := false } }

/-- A window whose maximized and fullscreen flags are both set. -/
def winFullMax : window_t :=
  { win800 with is_maximised := true, is_fullscreen := true }

/-- A window whose maximized flag is set and whose fullscreen flag is not. -/
def winMaxOnly : window_t :=
  { win800 with is_maximised := true }

/- ------------------------------------------------------------------ -/
/- Theorems                                                           -/
/- ------------------------------------------------------------------ -/

/-- C1 (counterexample): the claim says a bounds query reports the last value
accepted from a compositor configuration event or an explicit resize call; but
after `setClientSize(1024, 768)` on a window whose geometry is 800×600 the
call succeeds, yet the bounds query still reports (0,0,800,600), not the
(0,0,1024,768) the resize call supplied. -/
theorem setClientSize_stale_bounds_counterexample :
    (setClientSize win800 1024 768).2 = GHOST_TSuccess.kSuccess ∧
    getClientBounds (setClientSize win800 1024 768).1 = GHOST_Rect.set 0 0 800 600 ∧
    getClientBounds (setClientSize win800 1024 768).1 ≠ GHOST_Rect.set 0 0 1024 768 := by
  refine ⟨rfl, by decide, by decide⟩

/-- C1 (amended): a bounds query reports the last size adopted from a
compositor configuration event (the configured content size if present, the
previous size otherwise), or the construction size if no configuration has
arrived; explicit resize calls (`setClientSize`, `setClientWidth`,
`setClientHeight`) resize the native EGL surface but leave the reported
geometry unchanged. -/
theorem bounds_reflect_last_configure (win : window_t) (sys : SystemState)
    (cfg : libdecor_configuration) (wv hv : Nat) (dlg m f a : Bool) :
    getClientBounds (frame_configure cfg win sys).1 =
      (match cfg.content_size with
       | some p => GHOST_Rect.set 0 0 p.1 p.2
       | none => getClientBounds win) ∧
    getClientBounds (setClientSize win wv hv).1 = getClientBounds win ∧
    getClientBounds (setClientWidth win wv).1 = getClientBounds win ∧
    getClientBounds (setClientHeight win hv).1 = getClientBounds win ∧
    getClientBounds (construct wv hv dlg m f a) =
      GHOST_Rect.set 0 0 (int32_of_uns32 wv) (int32_of_uns32 hv) := by
  refine ⟨?_, rfl, rfl, rfl, rfl⟩
  cases hcs : cfg.content_size with
  | none => simp [frame_configure, hcs, getClientBounds, wl_egl_window_resize]
  | some p => simp [frame_configure, hcs, getClientBounds, wl_egl_window_resize]

/-- C2 (counterexample): the claim says a configuration notification with
active=true emits an activation event unconditionally; but when the host
window manager refuses the window (`setActiveWindow` fails), handling such a
configuration pushes only the size event — no activation event reaches the
queue. -/
theorem configure_active_wm_refuses_counterexample :
    cfgActive.window_state =
      some { maximized := false, fullscreen := false, active := true } ∧
    (frame_configure cfgActive win800 sysRefuse).2.eventQueue =
      [{ time := 7, etype := GHOST_TEventType.kEventWindowSize }] := by
  refine ⟨rfl, by decide⟩

/-- C2 (amended): on every configuration notification, unconditionally and
regardless of whether the active flag changed: if the adopted state has
active=true the activation routine runs, emitting an activation event exactly
when the host window manager accepts the window; if active=false or the state
flags are absent, a deactivation event is emitted. -/
theorem configure_activation_policy (win : window_t) (sys : SystemState)
    (cfg : libdecor_configuration) :
    ((cfg.window_state.getD LIBDECOR_WINDOW_STATE_NONE).active = true →
       (sys.wmAcceptsActive = true →
          (frame_configure cfg win sys).2.eventQueue =
            sys.eventQueue ++
              [{ time := sys.clock, etype := GHOST_TEventType.kEventWindowSize },
               { time := sys.clock, etype := GHOST_TEventType.kEventWindowActivate }]) ∧
       (sys.wmAcceptsActive = false →
          (frame_configure cfg win sys).2.eventQueue =
            sys.eventQueue ++
              [{ time := sys.clock, etype := GHOST_TEventType.kEventWindowSize }])) ∧
    ((cfg.window_state.getD LIBDECOR_WINDOW_STATE_NONE).active = false →
       (frame_configure cfg win sys).2.eventQueue =
         sys.eventQueue ++
           [{ time := sys.clock, etype := GHOST_TEventType.kEventWindowSize },
            { time := sys.clock, etype := GHOST_TEventType.kEventWindowDeactivate }]) := by
  cases hws : cfg.window_state with
  | none =>
      simp [frame_configure, hws, LIBDECOR_WINDOW_STATE_NONE, notify_size, deactivate,
            setWindowInactive, pushEvent]
  | some s =>
      cases s with
      | mk sm sf sa =>
          cases sa <;> cases hwm : sys.wmAcceptsActive <;>
            simp [frame_configure, hws, hwm, notify_size, deactivate, setWindowInactive,
                  pushEvent, activate, setActiveWindow, LIBDECOR_WINDOW_STATE_NONE]

/-- C2 (witness for the amended theorem): with an accepting window manager, a
configuration with active=true appends the size event and then the activation
event. -/
theorem configure_activation_policy_witness :
    (cfgActive.window_state.getD LIBDECOR_WINDOW_STATE_NONE).active = true ∧
    sysAccept.wmAcceptsActive = true ∧
    (frame_configure cfgActive win800 sysAccept).2.eventQueue =
      sysAccept.eventQueue ++
        [{ time := sysAccept.clock, etype := GHOST_TEventType.kEventWindowSize },
         { time := sysAccept.clock, etype := GHOST_TEventType.kEventWindowActivate }] :=
  ⟨rfl, rfl, ((configure_activation_policy win800 sysAccept cfgActive).1 rfl).1 rfl⟩

/-- C3: a configuration notification whose descriptor provides no content size
leaves the stored width and height unchanged; in particular, a window
constructed with width 800 and height 600 that receives such a notification
still reports bounds (0,0,800,600). -/
theorem configure_without_size_preserves_geometry (win : window_t)
    (sys : SystemState) (cfg : libdecor_configuration)
    (hnone : cfg.content_size = none) :
    (frame_configure cfg win sys).1.width = win.width ∧
    (frame_configure cfg win sys).1.height = win.height ∧
    (∀ (dlg m f a : Bool) (sys2 : SystemState),
       getClientBounds (frame_configure cfg (construct 800 600 dlg m f a) sys2).1 =
         GHOST_Rect.set 0 0 800 600) := by
  refine ⟨by simp [frame_configure, hnone, wl_egl_window_resize],
          by simp [frame_configure, hnone, wl_egl_window_resize],
          ?_⟩
  intro dlg m f a sys2
  simp [frame_configure, hnone, wl_egl_window_resize, getClientBounds, construct]
  norm_num [int32_of_uns32, GHOST_Rect.set]

/-- C3 (witness): the no-size, no-flags configuration `cfgNoSize` preserves
the geometry of the 800×600 window. -/
theorem configure_without_size_preserves_geometry_witness :
    cfgNoSize.content_size = none ∧
    (frame_configure cfgNoSize win800 sysAccept).1.width = win800.width ∧
    getClientBounds (frame_configure cfgNoSize win800 sysAccept).1 =
      GHOST_Rect.set 0 0 800 600 :=
  ⟨rfl,
   (configure_without_size_preserves_geometry win800 sysAccept cfgNoSize rfl).1,
   (configure_without_size_preserves_geometry win800 sysAccept cfgNoSize rfl).2.2
     false false false false sysAccept⟩

/-- C4: `getState` returns fullscreen whenever the fullscreen flag is set
(regardless of the maximized flag), maximized when only the maximized flag is
set, and normal otherwise; after a configuration notification carrying
{fullscreen=true, maximized=true}, `getState` returns fullscreen. -/
theorem getState_fullscreen_priority (win : window_t) (sys : SystemState)
    (cfg : libdecor_configuration) (ac : Bool)
    (hws : cfg.window_state =
      some { maximized := true, fullscreen := true, active := ac }) :
    (win.is_fullscreen = true →
       getState win = GHOST_TWindowState.kWindowStateFullScreen) ∧
    (win.is_fullscreen = false → win.is_maximised = true →
       getState win = GHOST_TWindowState.kWindowStateMaximized) ∧
    (win.is_fullscreen = false → win.is_maximised = false →
       getState win = GHOST_TWindowState.kWindowStateNormal) ∧
    getState (frame_configure cfg win sys).1 =
      GHOST_TWindowState.kWindowStateFullScreen := by
  refine ⟨?_, ?_, ?_, ?_⟩
  · intro hf; simp [getState, hf]
  · intro hf hm; simp [getState, hf, hm]
  · intro hf hm; simp [getState, hf, hm]
  · simp [frame_configure, hws, getState, wl_egl_window_resize]

/-- C4 (witness): the configuration `cfgFullMax` carries both flags, and the
resulting state is fullscreen. -/
theorem getState_fullscreen_priority_witness :
    cfgFullMax.window_state =
      some { maximized := true, fullscreen := true, active := false } ∧
    getState (frame_configure cfgFullMax win800 sysAccept).1 =
      GHOST_TWindowState.kWindowStateFullScreen :=
  ⟨rfl, (getState_fullscreen_priority win800 sysAccept cfgFullMax false rfl).2.2.2⟩

/-- C5 (counterexample): the claim says any window with the maximized flag set
gets exactly one maximized-unset on a normal-state request; but on a window
with both the maximized and the fullscreen flags set, the request issues a
fullscreen-unset and no maximized-unset. -/
theorem setState_normal_while_also_fullscreen_counterexample :
    winFullMax.is_maximised = true ∧
    (setState winFullMax GHOST_TWindowState.kWindowStateNormal).2.1 =
      [DecorCmd.unset_fullscreen] ∧
    List.count DecorCmd.unset_maximized
      (setState winFullMax GHOST_TWindowState.kWindowStateNormal).2.1 = 0 := by
  refine ⟨rfl, by decide, by decide⟩

/-- C5 (amended): for every window whose maximized flag is set and whose
fullscreen flag is not set, a normal-state request issues exactly one
maximized-unset command to the decoration layer and no fullscreen-unset
command, and succeeds. -/
theorem setState_normal_unsets_maximized (win : window_t)
    (hm : win.is_maximised = true) (hf : win.is_fullscreen = false) :
    (setState win GHOST_TWindowState.kWindowStateNormal).2.1 =
      [DecorCmd.unset_maximized] ∧
    List.count DecorCmd.unset_fullscreen
      (setState win GHOST_TWindowState.kWindowStateNormal).2.1 = 0 ∧
    (setState win GHOST_TWindowState.kWindowStateNormal).2.2 =
      GHOST_TSuccess.kSuccess := by
  simp [setState, getState, hm, hf]

/-- C5 (witness for the amended theorem): the maximized-only window. -/
theorem setState_normal_unsets_maximized_witness :
    winMaxOnly.is_maximised = true ∧ winMaxOnly.is_fullscreen = false ∧
    (setState winMaxOnly GHOST_TWindowState.kWindowStateNormal).2.1 =
      [DecorCmd.unset_maximized] :=
  ⟨rfl, rfl, (setState_normal_unsets_maximized winMaxOnly rfl rfl).1⟩

/-- C6: requesting the embedded state fails, issues no decoration-layer
command, and leaves the whole window record — in particular the maximized,
fullscreen, active and dialog flags and the geometry — unchanged. -/
theorem setState_embedded_fails_without_side_effects (win : window_t) :
    (setState win GHOST_TWindowState.kWindowStateEmbedded).2.2 =
      GHOST_TSuccess.kFailure ∧
    (setState win GHOST_TWindowState.kWindowStateEmbedded).2.1 = [] ∧
    (setState win GHOST_TWindowState.kWindowStateEmbedded).1 = win ∧
    (setState win GHOST_TWindowState.kWindowStateEmbedded).1.is_maximised =
      win.is_maximised ∧
    (setState win GHOST_TWindowState.kWindowStateEmbedded).1.is_fullscreen =
      win.is_fullscreen ∧
    (setState win GHOST_TWindowState.kWindowStateEmbedded).1.is_active =
      win.is_active ∧
    (setState win GHOST_TWindowState.kWindowStateEmbedded).1.is_dialog =
      win.is_dialog ∧
    (setState win GHOST_TWindowState.kWindowStateEmbedded).1.width = win.width ∧
    (setState win GHOST_TWindowState.kWindowStateEmbedded).1.height = win.height :=
  ⟨rfl, rfl, rfl, rfl, rfl, rfl, rfl, rfl, rfl⟩

/-- C7: a close notification pushes exactly one close-requested event to the
event sink, and leaves the window record untouched — in particular the
decoration-frame and surface handles stay live. -/
theorem frame_close_emits_single_close_event (win : window_t)
    (sys : SystemState) :
    (frame_close win sys).1 = win ∧
    (frame_close win sys).2.1.eventQueue =
      sys.eventQueue ++
        [{ time := sys.clock, etype := GHOST_TEventType.kEventWindowClose }] ∧
    (frame_close win sys).1.frame_valid = win.frame_valid ∧
    (frame_close win sys).1.surface_valid = win.surface_valid :=
  ⟨rfl, rfl, rfl, rfl⟩

/-- C8: `screenToClient` and `clientToScreen` are both the identity on
coordinates, so their composition in either order is the identity. -/
theorem coordinate_transforms_identity (x y : Int) :
    screenToClient x y = (x, y) ∧
    clientToScreen x y = (x, y) ∧
    clientToScreen (screenToClient x y).1 (screenToClient x y).2 = (x, y) ∧
    screenToClient (clientToScreen x y).1 (clientToScreen x y).2 = (x, y) :=
  ⟨rfl, rfl, rfl, rfl⟩

/-- C9: `newDrawingContext` returns the constructed context if and only if the
context's initialization step reports success, and returns a null result when
initialization fails. -/
theorem newDrawingContext_iff_init_success (stereoVisual : Bool)
    (t : GHOST_TDrawingContextType)
    (initDrawingContext : GHOST_Context → GHOST_TSuccess) :
    (newDrawingContext stereoVisual t initDrawingContext =
        some (constructedContext stereoVisual t) ↔
      initDrawingContext (constructedContext stereoVisual t) =
        GHOST_TSuccess.kSuccess) ∧
    (initDrawingContext (constructedContext stereoVisual t) =
        GHOST_TSuccess.kFailure →
      newDrawingContext stereoVisual t initDrawingContext = none) := by
  cases hinit : initDrawingContext (constructedContext stereoVisual t) <;>
    simp [newDrawingContext, hinit]

/-- C9 (witness): with an initialization step that always fails, requesting a
context of kind none yields a null result. -/
theorem newDrawingContext_iff_init_success_witness :
    (fun _ => GHOST_TSuccess.kFailure)
        (constructedContext false GHOST_TDrawingContextType.kDrawingContextTypeNone) =
      GHOST_TSuccess.kFailure ∧
    newDrawingContext false GHOST_TDrawingContextType.kDrawingContextTypeNone
      (fun _ => GHOST_TSuccess.kFailure) = none :=
  ⟨rfl,
   (newDrawingContext_iff_init_success false
      GHOST_TDrawingContextType.kDrawingContextTypeNone
      (fun _ => GHOST_TSuccess.kFailure)).2 rfl⟩

/-- C10: `activate` pushes an activation event exactly when the host window
manager accepts the window as its active window, and returns failure without
pushing any event otherwise; `deactivate` pushes a deactivation event
unconditionally. -/
theorem activate_deactivate_event_policy (sys : SystemState) :
    (sys.wmAcceptsActive = true →
       (activate sys).1.eventQueue =
         sys.eventQueue ++
           [{ time := sys.clock, etype := GHOST_TEventType.kEventWindowActivate }] ∧
       (activate sys).2 = GHOST_TSuccess.kSuccess) ∧
    (sys.wmAcceptsActive = false →
       (activate sys).1.eventQueue = sys.eventQueue ∧
       (activate sys).2 = GHOST_TSuccess.kFailure) ∧
    (deactivate sys).1.eventQueue =
      sys.eventQueue ++
        [{ time := sys.clock, etype := GHOST_TEventType.kEventWindowDeactivate }] := by
  refine ⟨?_, ?_, ?_⟩
  · intro h; simp [activate, setActiveWindow, h, pushEvent]
  · intro h; simp [activate, setActiveWindow, h, pushEvent]
  · simp [deactivate, setWindowInactive, pushEvent]

/-- C10 (witness): with a refusing window manager, `activate` pushes nothing
and fails. -/
theorem activate_deactivate_event_policy_witness :
    sysRefuse.wmAcceptsActive = false ∧
    (activate sysRefuse).1.eventQueue = sysRefuse.eventQueue ∧
    (activate sysRefuse).2 = GHOST_TSuccess.kFailure :=
  ⟨rfl, (activate_deactivate_event_policy sysRefuse).2.1 rfl⟩

end GhostWayland
